import Mathlib

/-
Verification of the core gameplay logic of the alarm-snooze game
(src/game.rs): the time-of-day clock, the AABB hit test, the Bevy-style
timers, and the per-tick gameplay system pipeline (press resolution,
miss penalty, snooze, sleep/fade cycle, table bounds, vibration).

Real-valued quantities (seconds, world coordinates) are modelled over ℚ;
the claims under scrutiny depend only on exact comparisons far from any
f32 rounding boundary.
-/

set_option maxRecDepth 10000

namespace LD50

/-! Constants from src/game.rs. -/

def SNOOZE_MINUTES : Nat := 7
def MINUTES_PER_HOUR : Nat := 60
def HOURS_PER_DAY : Nat := 24

def MISS_PENALTY_SECONDS : ℚ := 1
def VIBRATION_DELAY_SECONDS : ℚ := 3/2
/-- 500 ms, the duration of one vibration animation. -/
def VIBRATE_TIME : ℚ := 1/2

def ARM_ANCHOR_STARTING_POSITION_X : ℚ := 1400
def ARM_ANCHOR_STARTING_POSITION_Y : ℚ := 0

def TABLE_EDGE_LEFT : ℚ := -577
def TABLE_EDGE_RIGHT : ℚ := 440
def TABLE_EDGE_TOP : ℚ := 370
def TABLE_EDGE_BOTTOM : ℚ := -290

/-- Size of the snooze button sprite (custom_size Some(250, 100) in game_setup). -/
def SNOOZE_BUTTON_SIZE : ℚ × ℚ := (250, 100)

/-! The game clock (struct GameTime in game.rs). -/

structure GameTime where
  hour : Nat
  minute : Nat
deriving DecidableEq

/-- GameTime::snooze from game.rs: advance the time by SNOOZE_MINUTES,
wrapping the minute at 60 and the hour at 24. -/
def GameTime.snooze (t : GameTime) : GameTime :=
  let newMinute := (t.minute + SNOOZE_MINUTES) % MINUTES_PER_HOUR
  let newHour := if newMinute < t.minute then (t.hour + 1) % HOURS_PER_DAY else t.hour
  { hour := newHour, minute := newMinute }

/-! Bevy 0.6 timers, as used by this game (never paused). `tick` follows
bevy_core::Timer::tick: a finished non-repeating timer only clears its
just-finished flag; otherwise elapsed time accumulates, a non-repeating
timer clamps elapsed to its duration on finishing, and a repeating timer
wraps elapsed modulo its duration. -/

structure Timer where
  duration : ℚ
  elapsed : ℚ
  repeating : Bool
  finished : Bool
  justFinished : Bool
deriving DecidableEq

/-- Timer::from_seconds. -/
def Timer.fromSeconds (d : ℚ) (repeating : Bool) : Timer :=
  { duration := d, elapsed := 0, repeating := repeating,
    finished := false, justFinished := false }

/-- Timer::tick(delta). -/
def Timer.tick (t : Timer) (delta : ℚ) : Timer :=
  if !t.repeating && t.finished then
    { t with justFinished := false }
  else
    let e := t.elapsed + delta
    if t.duration ≤ e then
      if t.repeating then
        { t with elapsed := e - t.duration * ((⌊e / t.duration⌋ : ℤ) : ℚ),
                 finished := true, justFinished := true }
      else
        { t with elapsed := t.duration, finished := true, justFinished := true }
    else
      { t with elapsed := e, finished := false, justFinished := false }

/-- A timer is counting: in this game no timer is ever paused, so it is
active exactly when it has not finished. -/
def Timer.active (t : Timer) : Bool := !t.finished

/-! The AABB hit test (fn intersects in game.rs). A transform carries a
world translation and scale (only x/y matter to this function). -/

structure GTransform where
  tx : ℚ
  ty : ℚ
  sx : ℚ
  sy : ℚ
deriving DecidableEq

/-- fn intersects from game.rs, line for line. Note the source computes
`b_right` from `b_height` (line 766) and `b_top`/`b_bottom` from the raw
`b.scale.y` ignoring any custom size (lines 767-768). -/
def intersects (a : GTransform) (aSize : Option (ℚ × ℚ))
    (b : GTransform) (bSize : Option (ℚ × ℚ)) : Bool :=
  let aWidth := (aSize.getD (1, 1)).1 * a.sx
  let aHeight := (aSize.getD (1, 1)).2 * a.sy
  let aLeft := a.tx - aWidth / 2
  let aRight := a.tx + aWidth / 2
  let aTop := a.ty + aHeight / 2
  let aBottom := a.ty - aHeight / 2
  let bWidth := (bSize.getD (1, 1)).1 * b.sx
  let bHeight := (bSize.getD (1, 1)).2 * b.sy
  let bLeft := b.tx - bWidth / 2
  let bRight := b.tx + bHeight / 2
  let bTop := b.ty + b.sy / 2
  let bBottom := b.ty - b.sy / 2
  decide (aLeft < bRight ∧ bLeft < aRight ∧ bBottom < aTop ∧ aBottom < bTop)

/-- Modelled from the spec: the standard AABB overlap formula with BOTH
rectangles' half-extents derived as customSize * worldScale on each axis,
centered on the world translation. Stated for comparison with the
source's `intersects`. -/
def intersectsSpec (a : GTransform) (aSize : Option (ℚ × ℚ))
    (b : GTransform) (bSize : Option (ℚ × ℚ)) : Bool :=
  let aWidth := (aSize.getD (1, 1)).1 * a.sx
  let aHeight := (aSize.getD (1, 1)).2 * a.sy
  let aLeft := a.tx - aWidth / 2
  let aRight := a.tx + aWidth / 2
  let aTop := a.ty + aHeight / 2
  let aBottom := a.ty - aHeight / 2
  let bWidth := (bSize.getD (1, 1)).1 * b.sx
  let bHeight := (bSize.getD (1, 1)).2 * b.sy
  let bLeft := b.tx - bWidth / 2
  let bRight := b.tx + bWidth / 2
  let bTop := b.ty + bHeight / 2
  let bBottom := b.ty - bHeight / 2
  decide (aLeft < bRight ∧ bLeft < aRight ∧ bBottom < aTop ∧ aBottom < bTop)

/-- Lines 844-847 of snooze_system: if the vibrate timer's interval is
still above VIBRATE_TIME, replace it with a fresh repeating timer at 0.9
times the interval. -/
def speedUpVibrate (t : Timer) : Timer :=
  if VIBRATE_TIME < t.duration then Timer.fromSeconds (t.duration * (9/10)) true else t

/-! The per-tick gameplay pipeline. The physics- and render-driven
quantities (frame delta, key press edge, world transforms of the snooze
button and the touch areas, the phone's world position, and the tween
completion signals for the two fades) are supplied by the environment as
the tick's input. -/

inductive Sound where
  | hit
  | drop
  | alarmLoop
  | alarmStop
deriving DecidableEq

structure TickInput where
  delta : ℚ
  press : Bool
  snoozeT : GTransform
  touchTs : List GTransform
  phoneX : ℚ
  phoneY : ℚ
  fadeOutDone : Bool
  fadeInDone : Bool
deriving DecidableEq

structure GameState where
  time : GameTime
  timeDisplay : GameTime
  numSnoozes : Nat
  inputAllowed : Bool
  alarmActive : Bool
  vibrateTimer : Timer
  missTimer : Timer
  validPressPosition : Bool
  fadeOutInFlight : Bool
  fadeInInFlight : Bool
  phoneExists : Bool
  anchorX : ℚ
  anchorY : ℚ
  gameOver : Bool
deriving DecidableEq

/-- A frame in progress: the state plus this tick's emitted observables
(sound intents, the snooze event queue, the game-over summary, and
whether a vibration displacement was issued). -/
structure Frame where
  g : GameState
  sounds : List Sound
  snoozeEv : Bool
  summaryEmitted : Bool
  vibrated : Bool
deriving DecidableEq

/-- Bookkeeping for fade tweens: a tween completion signal consumed this
tick ends the corresponding fade's flight. No gameplay system reads these
flags; they record what the external tween collaborator is doing. -/
def fadeBookkeeping (i : TickInput) (s : GameState) : GameState :=
  { s with fadeOutInFlight := s.fadeOutInFlight && !i.fadeOutDone,
           fadeInInFlight := s.fadeInInFlight && !i.fadeInDone }

/-- Whether any touch area's world rectangle overlaps the snooze
button's, by the source's `intersects` with the snooze button's custom
size of 250 × 100 and no custom size on the touch areas. -/
def anyTouchOverlap (i : TickInput) : Bool :=
  i.touchTs.any (fun t => intersects i.snoozeT (some SNOOZE_BUTTON_SIZE) t none)

/-- valid_press_position_system: recompute each tick whether any touch
area overlaps the snooze button (the snooze button is a child of the
phone, so the check yields nothing once the phone is despawned). -/
def validPressPositionSystem (i : TickInput) (f : Frame) : Frame :=
  { f with g := { f.g with
      validPressPosition := f.g.phoneExists && anyTouchOverlap i } }

/-- press_system: ignored while input is disallowed; otherwise a press
plays the hit sound and either emits a snooze event (valid position) or
locks input and restarts the miss penalty timer (miss). -/
def pressSystem (i : TickInput) (f : Frame) : Frame :=
  if !f.g.inputAllowed then f
  else if i.press then
    let f1 : Frame := { f with sounds := f.sounds ++ [Sound.hit] }
    if f1.g.validPressPosition then
      { f1 with snoozeEv := true }
    else
      { f1 with g := { f1.g with
          inputAllowed := false,
          missTimer := Timer.fromSeconds MISS_PENALTY_SECONDS false } }
  else f

/-- miss_penalty_system: tick the miss timer; re-allow input exactly when
it just finished. -/
def missPenaltySystem (i : TickInput) (f : Frame) : Frame :=
  let t := f.g.missTimer.tick i.delta
  if t.justFinished then
    { f with g := { f.g with missTimer := t, inputAllowed := true } }
  else
    { f with g := { f.g with missTimer := t } }

/-- snooze_system: on a snooze event, stop the alarm channel, lock input,
turn the alarm off, bump the snooze count, advance the clock, speed up
the vibrate timer if above the floor, and request a fade-out. -/
def snoozeSystem (f : Frame) : Frame :=
  if !f.snoozeEv then f
  else
    { f with
      sounds := f.sounds ++ [Sound.alarmStop],
      g := { f.g with
        inputAllowed := false,
        alarmActive := false,
        numSnoozes := f.g.numSnoozes + 1,
        time := f.g.time.snooze,
        vibrateTimer := speedUpVibrate f.g.vibrateTimer,
        fadeOutInFlight := true } }

/-- sleep_system: on a fade-out-completed signal, refresh the time
display (a child of the phone), reset the arm anchor to its starting rail
coordinate, resume the alarm sound, re-allow input, turn the alarm back
on, and request a fade-in. Fade-in completion signals are consumed by no
system. -/
def sleepSystem (i : TickInput) (f : Frame) : Frame :=
  if !i.fadeOutDone then f
  else
    { f with
      sounds := f.sounds ++ [Sound.alarmLoop],
      g := { f.g with
        timeDisplay := if f.g.phoneExists then f.g.time else f.g.timeDisplay,
        anchorX := ARM_ANCHOR_STARTING_POSITION_X,
        anchorY := ARM_ANCHOR_STARTING_POSITION_Y,
        inputAllowed := true,
        alarmActive := true,
        fadeInInFlight := true } }

/-- table_bounds_system: if the phone's world position has crossed any
table edge, lock input, turn the alarm off, despawn the phone (and its
children), play the drop sound and emit the game-over summary. -/
def tableBoundsSystem (i : TickInput) (f : Frame) : Frame :=
  if f.g.phoneExists &&
      decide (i.phoneX < TABLE_EDGE_LEFT ∨ TABLE_EDGE_RIGHT < i.phoneX ∨
        TABLE_EDGE_TOP < i.phoneY ∨ i.phoneY < TABLE_EDGE_BOTTOM) then
    { f with
      sounds := f.sounds ++ [Sound.drop],
      summaryEmitted := true,
      g := { f.g with
        inputAllowed := false,
        alarmActive := false,
        phoneExists := false,
        gameOver := true } }
  else f

/-- vibration_system: inert while the alarm is off (the vibrate timer is
not even ticked); otherwise tick the vibrate timer and, when it fires,
issue a random displacement tween for the phone (if it still exists). -/
def vibrationSystem (i : TickInput) (f : Frame) : Frame :=
  if !f.g.alarmActive then f
  else
    let t := f.g.vibrateTimer.tick i.delta
    let f1 : Frame := { f with g := { f.g with vibrateTimer := t } }
    if t.finished && f1.g.phoneExists then { f1 with vibrated := true } else f1

/-- One tick of the gameplay schedule: hit-zone geometry, press
resolution, the timers and state machine, bounds check, vibration. -/
def step (s : GameState) (i : TickInput) : Frame :=
  vibrationSystem i (tableBoundsSystem i (sleepSystem i (snoozeSystem
    (missPenaltySystem i (pressSystem i (validPressPositionSystem i
      { g := fadeBookkeeping i s, sounds := [], snoozeEv := false,
        summaryEmitted := false, vibrated := false }))))))

def stepState (s : GameState) (i : TickInput) : GameState := (step s i).g

def runGame (s : GameState) (is : List TickInput) : GameState :=
  is.foldl stepState s

/-- The state right after game_setup: 8:00, no snoozes, input allowed,
alarm on, fresh vibrate (1.5 s, repeating) and miss (1 s, one-shot)
timers, and the startup fade-in requested by game_setup in flight. -/
def initialState : GameState :=
  { time := { hour := 8, minute := 0 },
    timeDisplay := { hour := 8, minute := 0 },
    numSnoozes := 0,
    inputAllowed := true,
    alarmActive := true,
    vibrateTimer := Timer.fromSeconds VIBRATION_DELAY_SECONDS true,
    missTimer := Timer.fromSeconds MISS_PENALTY_SECONDS false,
    validPressPosition := false,
    fadeOutInFlight := false,
    fadeInInFlight := true,
    phoneExists := true,
    anchorX := ARM_ANCHOR_STARTING_POSITION_X,
    anchorY := ARM_ANCHOR_STARTING_POSITION_Y,
    gameOver := false }

/-- The phone's position this tick is inside the table rectangle. -/
def phoneInBounds (i : TickInput) : Prop :=
  TABLE_EDGE_LEFT ≤ i.phoneX ∧ i.phoneX ≤ TABLE_EDGE_RIGHT ∧
  i.phoneY ≤ TABLE_EDGE_TOP ∧ TABLE_EDGE_BOTTOM ≤ i.phoneY

instance (i : TickInput) : Decidable (phoneInBounds i) := by
  unfold phoneInBounds; infer_instance

/-- A quiet tick: no press, no fade-out completion signal, a nonnegative
frame delta, and the phone inside the table bounds. -/
def quietIn (i : TickInput) : Prop :=
  i.press = false ∧ i.fadeOutDone = false ∧ 0 ≤ i.delta ∧ phoneInBounds i

instance (i : TickInput) : Decidable (quietIn i) := by
  unfold quietIn; infer_instance

/-! Theorems for claims C1, C2, C6, C7. -/

/-- C1: the claim says `intersects` implements the standard AABB overlap
test with both rectangles' half-extents derived as customSize * worldScale.
It does not: for A centered at (5/2, 0) with unit scale and no custom size
and B centered at the origin with unit scale and custom size 5 × 1, the code
returns false (it computes B's right edge from B's height and B's vertical
half-extent from the raw scale) while the claimed formula returns true. -/
theorem c1_intersects_diverges_from_spec_formula :
    intersects { tx := 5/2, ty := 0, sx := 1, sy := 1 } none
        { tx := 0, ty := 0, sx := 1, sy := 1 } (some (5, 1)) = false ∧
    intersectsSpec { tx := 5/2, ty := 0, sx := 1, sy := 1 } none
        { tx := 0, ty := 0, sx := 1, sy := 1 } (some (5, 1)) = true := by
  constructor <;> with_unfolding_all rfl

/-- C2: the claim says the overlap test is symmetric in its two arguments.
The code's `intersects` is not: for A centered at (2, 0) with scale 1 × 1
and B centered at the origin with scale 5 × 1 (no custom sizes),
intersects A B is false while intersects B A is true, because B's right
edge is computed from B's height rather than its width. -/
theorem c2_intersects_not_symmetric :
    intersects { tx := 2, ty := 0, sx := 1, sy := 1 } none
        { tx := 0, ty := 0, sx := 5, sy := 1 } none = false ∧
    intersects { tx := 0, ty := 0, sx := 5, sy := 1 } none
        { tx := 2, ty := 0, sx := 1, sy := 1 } none = true := by
  constructor <;> with_unfolding_all rfl

/-- One snooze keeps the clock fields in range. -/
theorem GameTime.snooze_bounds {t : GameTime}
    (hh : t.hour < HOURS_PER_DAY) (_hm : t.minute < MINUTES_PER_HOUR) :
    t.snooze.hour < HOURS_PER_DAY ∧ t.snooze.minute < MINUTES_PER_HOUR := by
  unfold GameTime.snooze SNOOZE_MINUTES MINUTES_PER_HOUR HOURS_PER_DAY at *
  dsimp only
  constructor
  · split <;> omega
  · omega

/-- C6: from any in-range clock, iterating the snooze advance (7 minutes)
up to 1000 times never produces minute ≥ 60 or hour ≥ 24, and
{23, 58} advances to {0, 5}. -/
theorem c6_clock_wraparound (t : GameTime)
    (hh : t.hour < HOURS_PER_DAY) (hm : t.minute < MINUTES_PER_HOUR) :
    (∀ n : Nat, n ≤ 1000 →
      (GameTime.snooze^[n] t).hour < HOURS_PER_DAY ∧
      (GameTime.snooze^[n] t).minute < MINUTES_PER_HOUR) ∧
    GameTime.snooze { hour := 23, minute := 58 } = { hour := 0, minute := 5 } := by
  have key : ∀ n : Nat,
      (GameTime.snooze^[n] t).hour < HOURS_PER_DAY ∧
      (GameTime.snooze^[n] t).minute < MINUTES_PER_HOUR := by
    intro n
    induction n with
    | zero => exact ⟨hh, hm⟩
    | succ n ih =>
        rw [Function.iterate_succ_apply']
        exact GameTime.snooze_bounds ih.1 ih.2
  exact ⟨fun n _ => key n, rfl⟩

/-- C6 witness: instantiation at the starting clock 8:00 after 3 snoozes. -/
theorem c6_clock_wraparound_witness :
    (GameTime.snooze^[3] { hour := 8, minute := 0 }).hour < HOURS_PER_DAY := by
  exact ((c6_clock_wraparound { hour := 8, minute := 0 }
    (by decide) (by decide)).1 3 (by decide)).1

/-- C7 counterexample: the claim says the vibration interval, shrunk by
0.9 per snooze, never drops below VIBRATE_TIME (500 ms). Starting from the
initial 1.5 s interval, the 11th snooze still passes the guard (the 10th
value is 1.5 * 0.9^10 ≈ 0.523 > 0.5) and produces
1.5 * 0.9^11 ≈ 0.4707 < 0.5, strictly below the claimed floor. -/
theorem c7_vibration_floor_violated :
    (speedUpVibrate^[11] (Timer.fromSeconds VIBRATION_DELAY_SECONDS true)).duration
      < VIBRATE_TIME := by
  with_unfolding_all decide

/-- One speedup step keeps the interval at or above 450 ms. -/
theorem speedUpVibrate_floor {t : Timer}
    (h : VIBRATE_TIME * (9/10) ≤ t.duration) :
    VIBRATE_TIME * (9/10) ≤ (speedUpVibrate t).duration := by
  unfold speedUpVibrate
  split
  · rename_i hgt
    simp only [Timer.fromSeconds]
    nlinarith [le_of_lt hgt]
  · exact h

/-- C7 amended: repeated snoozes shrink the vibration interval by 0.9 per
snooze while it exceeds 500 ms; the interval can overshoot one step below
500 ms but never drops below 0.9 * 500 ms = 450 ms. -/
theorem c7_vibration_floor (n : Nat) :
    VIBRATE_TIME * (9/10) ≤
      (speedUpVibrate^[n] (Timer.fromSeconds VIBRATION_DELAY_SECONDS true)).duration := by
  induction n with
  | zero =>
      simp only [Function.iterate_zero_apply, Timer.fromSeconds]
      norm_num [VIBRATE_TIME, VIBRATION_DELAY_SECONDS]
  | succ n ih =>
      rw [Function.iterate_succ_apply']
      exact speedUpVibrate_floor ih

/-- C7 amended witness: the 450 ms floor holds in particular at the 11th
snooze, where the 500 ms floor of the original claim is already broken. -/
theorem c7_vibration_floor_witness :
    VIBRATE_TIME * (9/10) ≤
      (speedUpVibrate^[11]
        (Timer.fromSeconds VIBRATION_DELAY_SECONDS true)).duration :=
  c7_vibration_floor 11

/-! Claims C3, C4, C8 counterexamples; claims C9, C10. -/

/-- A quiet 0.1 s first tick: no press, phone at the origin, no tween
completions. -/
def c3quiet : TickInput :=
  { delta := 1/10, press := false,
    snoozeT := { tx := 0, ty := 0, sx := 1, sy := 1 }, touchTs := [],
    phoneX := 0, phoneY := 0, fadeOutDone := false, fadeInDone := false }

/-- C3 counterexample: the claim says InputAllowed is false whenever the
miss-penalty timer is active, a fade (in either direction) is in flight,
or a failure has fired. Already one 0.1 s tick into the game — a
reachable state — input is allowed while the (never paused, never
finished) miss-penalty timer is counting and the startup fade-in
requested by game_setup is still in flight. -/
theorem c3_gate_exclusivity_fails :
    (stepState initialState c3quiet).inputAllowed = true ∧
    (stepState initialState c3quiet).missTimer.active = true ∧
    (stepState initialState c3quiet).fadeInInFlight = true := by
  refine ⟨?_, ?_, ?_⟩ <;> with_unfolding_all rfl

/-- Valid-overlap press tick at the start of the game; the startup
fade-in completes on the same tick. -/
def c4press : TickInput :=
  { delta := 1/10, press := true,
    snoozeT := { tx := 0, ty := 0, sx := 1, sy := 1 },
    touchTs := [{ tx := 0, ty := 0, sx := 1, sy := 1 }],
    phoneX := 0, phoneY := 0, fadeOutDone := false, fadeInDone := true }

/-- The tick on which the snooze fade-out completes. -/
def c4fadeOutDone : TickInput :=
  { delta := 1/10, press := false,
    snoozeT := { tx := 0, ty := 0, sx := 1, sy := 1 }, touchTs := [],
    phoneX := 0, phoneY := 0, fadeOutDone := true, fadeInDone := false }

/-- C4 counterexample: the claim says the clock advance happens on the
fade-out-finished transition and that AlarmActive becomes true only after
fade-in completes. In the code the clock already reads 8:07 at the end of
the press tick, while the fade-out is still in flight; and the alarm is
already active right after the fade-out completes, while the newly
requested fade-in is still in flight (no fade-in completion signal has
arrived). -/
theorem c4_transition_timing_diverges :
    (stepState initialState c4press).time = { hour := 8, minute := 7 } ∧
    (stepState initialState c4press).fadeOutInFlight = true ∧
    (stepState initialState c4press).fadeInInFlight = false ∧
    (runGame initialState [c4press, c4fadeOutDone]).alarmActive = true ∧
    (runGame initialState [c4press, c4fadeOutDone]).fadeInInFlight = true := by
  refine ⟨?_, ?_, ?_, ?_, ?_⟩ <;> with_unfolding_all rfl

/-- A missed press (no touch area overlapping) on the first tick. -/
def c8miss : TickInput :=
  { delta := 1/5, press := true,
    snoozeT := { tx := 0, ty := 0, sx := 1, sy := 1 }, touchTs := [],
    phoneX := 0, phoneY := 0, fadeOutDone := false, fadeInDone := false }

/-- The phone found past the right table edge on the second tick. -/
def c8out : TickInput :=
  { delta := 1/5, press := false,
    snoozeT := { tx := 0, ty := 0, sx := 1, sy := 1 }, touchTs := [],
    phoneX := 1000, phoneY := 0, fadeOutDone := false, fadeInDone := false }

/-- A quiet 1 s tick after the failure. -/
def c8later : TickInput :=
  { delta := 1, press := false,
    snoozeT := { tx := 0, ty := 0, sx := 1, sy := 1 }, touchTs := [],
    phoneX := 0, phoneY := 0, fadeOutDone := false, fadeInDone := false }

/-- C8 counterexample: the claim says that after the failure fires,
InputAllowed never becomes true again in that round. But the miss-penalty
timer keeps running after game over: a miss 0.2 s into the game, the
phone crossing the right edge at 0.4 s, and one more 1 s tick leave the
round in game-over with input allowed again (the penalty timer expired
and re-enabled it). -/
theorem c8_input_reenabled_after_game_over :
    (runGame initialState [c8miss, c8out]).gameOver = true ∧
    (runGame initialState [c8miss, c8out]).inputAllowed = false ∧
    (runGame initialState [c8miss, c8out, c8later]).gameOver = true ∧
    (runGame initialState [c8miss, c8out, c8later]).inputAllowed = true := by
  refine ⟨?_, ?_, ?_, ?_⟩ <;> with_unfolding_all rfl

/-! Facts about the individual systems, used to settle the trace-level
claims. -/

/-- The geometry pass only rewrites the cached press-validity flag. -/
theorem validPress_only_valid (i : TickInput) (f : Frame) :
    validPressPositionSystem i f =
      { f with g := { f.g with
          validPressPosition := f.g.phoneExists && anyTouchOverlap i } } := rfl

/-- A press is ignored entirely while input is disallowed. -/
theorem press_locked (i : TickInput) (f : Frame)
    (h : f.g.inputAllowed = false) : pressSystem i f = f := by
  simp [pressSystem, h]

/-- Without a press edge, press_system does nothing. -/
theorem press_no_edge (i : TickInput) (f : Frame)
    (h : i.press = false) : pressSystem i f = f := by
  unfold pressSystem
  split
  · rfl
  · rw [h]
    simp

/-- miss_penalty_system always stores the ticked miss timer. -/
theorem missPen_timer (i : TickInput) (f : Frame) :
    (missPenaltySystem i f).g.missTimer = f.g.missTimer.tick i.delta := by
  simp only [missPenaltySystem]
  split <;> rfl

/-- miss_penalty_system only touches the miss timer and the input gate. -/
theorem missPen_only_timer_gate (i : TickInput) (f : Frame) :
    missPenaltySystem i f =
      { f with g := { f.g with
          missTimer := f.g.missTimer.tick i.delta,
          inputAllowed :=
            (f.g.missTimer.tick i.delta).justFinished || f.g.inputAllowed } } := by
  simp only [missPenaltySystem]
  split
  · rename_i hj
    simp [hj]
  · rename_i hj
    rw [Bool.not_eq_true] at hj
    simp [hj]

/-- Without a pending snooze event, snooze_system does nothing. -/
theorem snooze_no_event (f : Frame) (h : f.snoozeEv = false) :
    snoozeSystem f = f := by
  simp [snoozeSystem, h]

/-- Without a fade-out completion signal, sleep_system does nothing. -/
theorem sleep_no_signal (i : TickInput) (f : Frame)
    (h : i.fadeOutDone = false) : sleepSystem i f = f := by
  simp [sleepSystem, h]

/-- While the phone reads inside the table, table_bounds_system does
nothing. -/
theorem bounds_inside (i : TickInput) (f : Frame)
    (h : phoneInBounds i) : tableBoundsSystem i f = f := by
  unfold tableBoundsSystem
  obtain ⟨hl, hr, ht, hb⟩ := h
  have : ¬(i.phoneX < TABLE_EDGE_LEFT ∨ TABLE_EDGE_RIGHT < i.phoneX ∨
      TABLE_EDGE_TOP < i.phoneY ∨ i.phoneY < TABLE_EDGE_BOTTOM) := by
    push_neg
    exact ⟨hl, hr, ht, hb⟩
  simp [this]

/-- Once the phone is gone, table_bounds_system does nothing. -/
theorem bounds_no_phone (i : TickInput) (f : Frame)
    (h : f.g.phoneExists = false) : tableBoundsSystem i f = f := by
  simp [tableBoundsSystem, h]

/-- vibration_system never touches the input gate. -/
theorem vibration_gate (i : TickInput) (f : Frame) :
    (vibrationSystem i f).g.inputAllowed = f.g.inputAllowed := by
  unfold vibrationSystem
  split
  · rfl
  · dsimp only
    split <;> rfl

/-- vibration_system never touches the alarm flag, the clock, the snooze
count, the phone, the game-over flag, the miss timer, or the fade
flags. -/
theorem vibration_only_timer (i : TickInput) (f : Frame) :
    (vibrationSystem i f).g =
      { f.g with vibrateTimer := (vibrationSystem i f).g.vibrateTimer } := by
  unfold vibrationSystem
  split
  · rfl
  · dsimp only
    split <;> rfl

/-- vibration_system keeps the emitted sounds, the snooze event and the
summary of the frame. -/
theorem vibration_keeps_out (i : TickInput) (f : Frame) :
    (vibrationSystem i f).sounds = f.sounds ∧
    (vibrationSystem i f).snoozeEv = f.snoozeEv ∧
    (vibrationSystem i f).summaryEmitted = f.summaryEmitted := by
  unfold vibrationSystem
  split
  · exact ⟨rfl, rfl, rfl⟩
  · dsimp only
    split <;> exact ⟨rfl, rfl, rfl⟩

/-- Whether the miss-penalty timer fires (just finishes) on this tick,
evaluated at its place in the schedule: after press resolution, which may
have restarted the timer. -/
def missTimerFires (s : GameState) (i : TickInput) : Bool :=
  ((missPenaltySystem i (pressSystem i (validPressPositionSystem i
    { g := fadeBookkeeping i s, sounds := [], snoozeEv := false,
      summaryEmitted := false, vibrated := false }))).g.missTimer).justFinished

/-- C3 amended: the input gate transitions from false to true only when
the miss-penalty timer expires or a fade-out completion signal arrives.
The unconditional exclusivity the claim states does not hold (see the
counterexample): the startup penalty timer counts during the opening
second while input is allowed, input is re-enabled during fade-in, and
after a failure those same two events can re-open the gate. -/
theorem c3_gate_enable_characterization (s : GameState) (i : TickInput)
    (h : (stepState s i).inputAllowed = true) :
    s.inputAllowed = true ∨ i.fadeOutDone = true ∨ missTimerFires s i = true := by
  by_contra hc
  simp only [not_or, Bool.not_eq_true] at hc
  obtain ⟨h1, h2, h3⟩ := hc
  apply absurd h
  rw [Bool.not_eq_true]
  show (vibrationSystem i (tableBoundsSystem i (sleepSystem i (snoozeSystem
    (missPenaltySystem i (pressSystem i (validPressPositionSystem i
      { g := fadeBookkeeping i s, sounds := [], snoozeEv := false,
        summaryEmitted := false, vibrated := false }))))))).g.inputAllowed = false
  have e1 : (validPressPositionSystem i
      { g := fadeBookkeeping i s, sounds := [], snoozeEv := false,
        summaryEmitted := false, vibrated := false }).g.inputAllowed = false := h1
  rw [press_locked i _ e1]
  rw [missPen_only_timer_gate]
  have e3 : ((validPressPositionSystem i
      { g := fadeBookkeeping i s, sounds := [], snoozeEv := false,
        summaryEmitted := false, vibrated := false }).g.missTimer.tick
        i.delta).justFinished = false := by
    have := h3
    rwa [missTimerFires, press_locked i _ e1, missPen_timer] at this
  rw [vibration_gate]
  unfold tableBoundsSystem
  split
  · rfl
  · rw [sleep_no_signal i _ h2]
    unfold snoozeSystem
    split
    · simp [e3, e1]
    · simp

/-- C3 amended witness: one quiet tick from the initial state keeps the
gate open, and indeed the gate was already open before it. -/
theorem c3_gate_enable_characterization_witness :
    initialState.inputAllowed = true ∨ c3quiet.fadeOutDone = true ∨
      missTimerFires initialState c3quiet = true :=
  c3_gate_enable_characterization initialState c3quiet (by
    with_unfolding_all rfl)

/-- press_system on a miss: input allowed, press edge, invalid position. -/
theorem press_miss (i : TickInput) (f : Frame)
    (hgate : f.g.inputAllowed = true) (hpress : i.press = true)
    (hvalid : f.g.validPressPosition = false) :
    pressSystem i f =
      { f with
        sounds := f.sounds ++ [Sound.hit],
        g := { f.g with
          inputAllowed := false,
          missTimer := Timer.fromSeconds MISS_PENALTY_SECONDS false } } := by
  unfold pressSystem
  rw [hgate, hpress]
  simp [hvalid]

/-- press_system on a hit: input allowed, press edge, valid position. -/
theorem press_hit (i : TickInput) (f : Frame)
    (hgate : f.g.inputAllowed = true) (hpress : i.press = true)
    (hvalid : f.g.validPressPosition = true) :
    pressSystem i f =
      { f with sounds := f.sounds ++ [Sound.hit], snoozeEv := true } := by
  unfold pressSystem
  rw [hgate, hpress]
  simp [hvalid]

/-- The shape of the miss-penalty timer once `acc` seconds have been
ticked into it since it was (re)started: one-shot, 1 s duration, elapsed
clamped at the duration, finished exactly from 1 s on; one more tick of
`d` seconds moves `acc` to `acc + d`, and the or of just-finished with
the old gate value is the new gate value. -/
theorem penalty_timer_tick (acc d : ℚ) (hd : 0 ≤ d) (t : Timer)
    (hdur : t.duration = MISS_PENALTY_SECONDS) (hrep : t.repeating = false)
    (hfin : t.finished = decide (MISS_PENALTY_SECONDS ≤ acc))
    (hel : t.elapsed =
      if MISS_PENALTY_SECONDS ≤ acc then MISS_PENALTY_SECONDS else acc) :
    (t.tick d).duration = MISS_PENALTY_SECONDS ∧
    (t.tick d).repeating = false ∧
    (t.tick d).finished = decide (MISS_PENALTY_SECONDS ≤ acc + d) ∧
    (t.tick d).elapsed =
      (if MISS_PENALTY_SECONDS ≤ acc + d then MISS_PENALTY_SECONDS
       else acc + d) ∧
    ((t.tick d).justFinished || decide (MISS_PENALTY_SECONDS ≤ acc)) =
      decide (MISS_PENALTY_SECONDS ≤ acc + d) := by
  by_cases hc : MISS_PENALTY_SECONDS ≤ acc
  · have hc2 : MISS_PENALTY_SECONDS ≤ acc + d := by linarith
    simp [Timer.tick, hdur, hrep, hfin, hel, hc, hc2]
  · by_cases hc2 : MISS_PENALTY_SECONDS ≤ acc + d
    · simp [Timer.tick, hdur, hrep, hfin, hel, hc, hc2]
    · simp [Timer.tick, hdur, hrep, hfin, hel, hc, hc2]

/-- The observable shape of the round state while a miss penalty is
running: `acc` seconds have been ticked into the one-shot penalty timer
since the miss, the gate is open exactly from 1 s on, and the snooze
count and clock are untouched. -/
def PenaltyInv (s0 : GameState) (acc : ℚ) (g : GameState) : Prop :=
  g.numSnoozes = s0.numSnoozes ∧
  g.time = s0.time ∧
  g.missTimer.duration = MISS_PENALTY_SECONDS ∧
  g.missTimer.repeating = false ∧
  g.missTimer.finished = decide (MISS_PENALTY_SECONDS ≤ acc) ∧
  g.missTimer.elapsed =
    (if MISS_PENALTY_SECONDS ≤ acc then MISS_PENALTY_SECONDS else acc) ∧
  g.inputAllowed = decide (MISS_PENALTY_SECONDS ≤ acc)

/-- A quiet tick advances the penalty invariant by the tick's delta. -/
theorem penaltyInv_step (s0 : GameState) (acc : ℚ) (g : GameState)
    (i : TickInput) (hq : quietIn i) (hI : PenaltyInv s0 acc g) :
    PenaltyInv s0 (acc + i.delta) (stepState g i) := by
  obtain ⟨hp, hf, hd, hb⟩ := hq
  obtain ⟨hn, ht, hdur, hrep, hfin, hel, hgate⟩ := hI
  obtain ⟨e1, e2, e3, e4, e5⟩ :=
    penalty_timer_tick acc i.delta hd g.missTimer hdur hrep hfin hel
  unfold stepState step
  dsimp only [fadeBookkeeping]
  rw [validPress_only_valid, press_no_edge _ _ hp, missPen_only_timer_gate,
    snooze_no_event _ rfl, sleep_no_signal _ _ hf, bounds_inside _ _ hb]
  rw [PenaltyInv]
  rw [vibration_only_timer]
  dsimp only
  exact ⟨hn, ht, e1, e2, e3, e4, by rw [hgate]; exact e5⟩

/-- Quiet ticks advance the penalty invariant by their total delta. -/
theorem penaltyInv_run (s0 : GameState) (acc : ℚ) (g : GameState)
    (is : List TickInput) (hqs : ∀ i ∈ is, quietIn i)
    (hI : PenaltyInv s0 acc g) :
    PenaltyInv s0 (acc + (is.map TickInput.delta).sum) (runGame g is) := by
  induction is generalizing acc g with
  | nil => simpa using hI
  | cons i is ih =>
      have h1 := penaltyInv_step s0 acc g i (hqs i (by simp)) hI
      have h2 := ih (acc + i.delta) (stepState g i)
        (fun j hj => hqs j (by simp [hj])) h1
      have : acc + i.delta + (is.map TickInput.delta).sum =
          acc + ((i :: is).map TickInput.delta).sum := by
        simp [add_assoc]
      rw [this] at h2
      exact h2

/-- A missed press establishes the penalty invariant (with the press
tick's own delta already ticked in) and plays the hit sound. -/
theorem miss_press_tick (s : GameState) (i : TickInput)
    (hgate : s.inputAllowed = true) (hpress : i.press = true)
    (hmiss : anyTouchOverlap i = false) (hfod : i.fadeOutDone = false)
    (hb : phoneInBounds i) (hd : 0 ≤ i.delta) :
    PenaltyInv s i.delta (stepState s i) ∧ Sound.hit ∈ (step s i).sounds := by
  have hfresh := penalty_timer_tick 0 i.delta hd
    (Timer.fromSeconds MISS_PENALTY_SECONDS false) rfl rfl
    (by rw [Timer.fromSeconds]; norm_num [MISS_PENALTY_SECONDS])
    (by rw [Timer.fromSeconds]; norm_num [MISS_PENALTY_SECONDS])
  obtain ⟨e1, e2, e3, e4, e5⟩ := hfresh
  rw [zero_add] at e3 e4 e5
  have hz : decide (MISS_PENALTY_SECONDS ≤ (0 : ℚ)) = false := by
    norm_num [MISS_PENALTY_SECONDS]
  rw [hz, Bool.or_false] at e5
  have hvalid : (validPressPositionSystem i
      { g := fadeBookkeeping i s, sounds := [], snoozeEv := false,
        summaryEmitted := false, vibrated := false }).g.validPressPosition
        = false := by
    show ((fadeBookkeeping i s).phoneExists && anyTouchOverlap i) = false
    rw [hmiss, Bool.and_false]
  have hgate2 : (validPressPositionSystem i
      { g := fadeBookkeeping i s, sounds := [], snoozeEv := false,
        summaryEmitted := false, vibrated := false }).g.inputAllowed
        = true := hgate
  constructor
  · unfold stepState step
    rw [press_miss _ _ hgate2 hpress hvalid, missPen_only_timer_gate,
      snooze_no_event _ rfl, sleep_no_signal _ _ hfod, bounds_inside _ _ hb]
    rw [PenaltyInv]
    rw [vibration_only_timer]
    dsimp only [validPressPositionSystem, fadeBookkeeping]
    exact ⟨rfl, rfl, e1, e2, e3, e4, by rw [Bool.or_false]; exact e5⟩
  · unfold step
    rw [press_miss _ _ hgate2 hpress hvalid, missPen_only_timer_gate,
      snooze_no_event _ rfl, sleep_no_signal _ _ hfod, bounds_inside _ _ hb]
    rw [(vibration_keeps_out _ _).1]
    simp

/-- snooze_system on a pending snooze event. -/
theorem snooze_event (f : Frame) (h : f.snoozeEv = true) :
    snoozeSystem f =
      { f with
        sounds := f.sounds ++ [Sound.alarmStop],
        g := { f.g with
          inputAllowed := false,
          alarmActive := false,
          numSnoozes := f.g.numSnoozes + 1,
          time := f.g.time.snooze,
          vibrateTimer := speedUpVibrate f.g.vibrateTimer,
          fadeOutInFlight := true } } := by
  simp [snoozeSystem, h]

/-- sleep_system on a fade-out completion signal. -/
theorem sleep_signal (i : TickInput) (f : Frame) (h : i.fadeOutDone = true) :
    sleepSystem i f =
      { f with
        sounds := f.sounds ++ [Sound.alarmLoop],
        g := { f.g with
          timeDisplay := if f.g.phoneExists then f.g.time else f.g.timeDisplay,
          anchorX := ARM_ANCHOR_STARTING_POSITION_X,
          anchorY := ARM_ANCHOR_STARTING_POSITION_Y,
          inputAllowed := true,
          alarmActive := true,
          fadeInInFlight := true } } := by
  simp [sleepSystem, h]

/-- table_bounds_system when the phone exists and reads out of bounds. -/
theorem bounds_out (i : TickInput) (f : Frame)
    (hp : f.g.phoneExists = true)
    (hout : i.phoneX < TABLE_EDGE_LEFT ∨ TABLE_EDGE_RIGHT < i.phoneX ∨
      TABLE_EDGE_TOP < i.phoneY ∨ i.phoneY < TABLE_EDGE_BOTTOM) :
    tableBoundsSystem i f =
      { f with
        sounds := f.sounds ++ [Sound.drop],
        summaryEmitted := true,
        g := { f.g with
          inputAllowed := false,
          alarmActive := false,
          phoneExists := false,
          gameOver := true } } := by
  unfold tableBoundsSystem
  rw [hp, decide_eq_true hout]
  simp

/-- press_system never touches the phone, the game-over flag, the alarm,
the clock, the snooze count, the summary, or the vibration output. -/
theorem press_fields (i : TickInput) (f : Frame) :
    (pressSystem i f).g.phoneExists = f.g.phoneExists ∧
    (pressSystem i f).g.gameOver = f.g.gameOver ∧
    (pressSystem i f).g.alarmActive = f.g.alarmActive ∧
    (pressSystem i f).g.time = f.g.time ∧
    (pressSystem i f).g.numSnoozes = f.g.numSnoozes ∧
    (pressSystem i f).summaryEmitted = f.summaryEmitted ∧
    (pressSystem i f).vibrated = f.vibrated := by
  unfold pressSystem
  split
  · exact ⟨rfl, rfl, rfl, rfl, rfl, rfl, rfl⟩
  · split
    · dsimp only
      split <;> exact ⟨rfl, rfl, rfl, rfl, rfl, rfl, rfl⟩
    · exact ⟨rfl, rfl, rfl, rfl, rfl, rfl, rfl⟩

/-- press_system emits no snooze event unless the cached position is
valid. -/
theorem press_no_snooze (i : TickInput) (f : Frame)
    (hvalid : f.g.validPressPosition = false) :
    (pressSystem i f).snoozeEv = f.snoozeEv := by
  unfold pressSystem
  split
  · rfl
  · split
    · dsimp only
      rw [hvalid]
      simp
    · rfl

/-- miss_penalty_system only touches the timer and the gate. -/
theorem missPen_fields (i : TickInput) (f : Frame) :
    (missPenaltySystem i f).g.phoneExists = f.g.phoneExists ∧
    (missPenaltySystem i f).g.gameOver = f.g.gameOver ∧
    (missPenaltySystem i f).g.alarmActive = f.g.alarmActive ∧
    (missPenaltySystem i f).g.time = f.g.time ∧
    (missPenaltySystem i f).g.numSnoozes = f.g.numSnoozes ∧
    (missPenaltySystem i f).summaryEmitted = f.summaryEmitted ∧
    (missPenaltySystem i f).vibrated = f.vibrated ∧
    (missPenaltySystem i f).snoozeEv = f.snoozeEv := by
  rw [missPen_only_timer_gate]
  exact ⟨rfl, rfl, rfl, rfl, rfl, rfl, rfl, rfl⟩

/-- snooze_system never touches the phone, the game-over flag, the
summary, the vibration output, or the event queue. -/
theorem snooze_fields (f : Frame) :
    (snoozeSystem f).g.phoneExists = f.g.phoneExists ∧
    (snoozeSystem f).g.gameOver = f.g.gameOver ∧
    (snoozeSystem f).summaryEmitted = f.summaryEmitted ∧
    (snoozeSystem f).vibrated = f.vibrated ∧
    (snoozeSystem f).snoozeEv = f.snoozeEv := by
  unfold snoozeSystem
  split <;> exact ⟨rfl, rfl, rfl, rfl, rfl⟩

/-- sleep_system never touches the phone, the game-over flag, the
summary, the vibration output, or the event queue. -/
theorem sleep_fields (i : TickInput) (f : Frame) :
    (sleepSystem i f).g.phoneExists = f.g.phoneExists ∧
    (sleepSystem i f).g.gameOver = f.g.gameOver ∧
    (sleepSystem i f).summaryEmitted = f.summaryEmitted ∧
    (sleepSystem i f).vibrated = f.vibrated ∧
    (sleepSystem i f).snoozeEv = f.snoozeEv := by
  unfold sleepSystem
  split <;> exact ⟨rfl, rfl, rfl, rfl, rfl⟩

/-- vibration_system issues no displacement once the phone is gone. -/
theorem vibration_no_phone (i : TickInput) (f : Frame)
    (hp : f.g.phoneExists = false) :
    (vibrationSystem i f).vibrated = f.vibrated := by
  unfold vibrationSystem
  split
  · rfl
  · dsimp only
    rw [hp]
    simp

/-- C5: a missed press (input allowed, press edge, no touch overlap)
plays the hit sound, locks the gate, and restarts the one-shot 1 s
penalty timer; along any following quiet run the gate is open at the end
of a tick exactly when the total time ticked into the timer since the
miss (the miss tick's delta plus the later deltas) has reached
MISS_PENALTY_SECONDS, and the snooze count and the clock never change. -/
theorem c5_miss_scenario (s : GameState) (i0 : TickInput)
    (is : List TickInput)
    (hgate : s.inputAllowed = true) (hpress : i0.press = true)
    (hmiss : anyTouchOverlap i0 = false) (hfod : i0.fadeOutDone = false)
    (hb : phoneInBounds i0) (hd : 0 ≤ i0.delta)
    (hqs : ∀ i ∈ is, quietIn i) :
    Sound.hit ∈ (step s i0).sounds ∧
    ∀ k, k ≤ is.length →
      (runGame s (i0 :: is.take k)).numSnoozes = s.numSnoozes ∧
      (runGame s (i0 :: is.take k)).time = s.time ∧
      (runGame s (i0 :: is.take k)).inputAllowed =
        decide (MISS_PENALTY_SECONDS ≤
          i0.delta + ((is.take k).map TickInput.delta).sum) := by
  obtain ⟨hI0, hsnd⟩ := miss_press_tick s i0 hgate hpress hmiss hfod hb hd
  refine ⟨hsnd, fun k _ => ?_⟩
  have hrun := penaltyInv_run s i0.delta (stepState s i0) (is.take k)
    (fun j hj => hqs j (List.take_subset k is hj)) hI0
  obtain ⟨hn, ht, _, _, _, _, hg⟩ := hrun
  exact ⟨hn, ht, hg⟩

theorem runGame_nil (g : GameState) : runGame g [] = g := rfl

theorem runGame_cons (g : GameState) (i : TickInput) (is : List TickInput) :
    runGame g (i :: is) = runGame (stepState g i) is := rfl

/-- A valid press (input allowed, press edge, touch overlap, phone on
the table) advances the clock and snooze count on its own tick, turns
the alarm off, locks input, and puts a fade-out in flight. -/
theorem hit_press_tick (s : GameState) (i : TickInput)
    (hgate : s.inputAllowed = true) (hpress : i.press = true)
    (hhit : anyTouchOverlap i = true) (hphone : s.phoneExists = true)
    (hfod : i.fadeOutDone = false) (hb : phoneInBounds i) :
    (stepState s i).time = s.time.snooze ∧
    (stepState s i).numSnoozes = s.numSnoozes + 1 ∧
    (stepState s i).alarmActive = false ∧
    (stepState s i).inputAllowed = false ∧
    (stepState s i).fadeOutInFlight = true ∧
    (stepState s i).phoneExists = true ∧
    (stepState s i).gameOver = s.gameOver ∧
    Sound.hit ∈ (step s i).sounds := by
  have hvalid : (validPressPositionSystem i
      { g := fadeBookkeeping i s, sounds := [], snoozeEv := false,
        summaryEmitted := false, vibrated := false }).g.validPressPosition
        = true := by
    show ((fadeBookkeeping i s).phoneExists && anyTouchOverlap i) = true
    have : (fadeBookkeeping i s).phoneExists = true := hphone
    rw [this, hhit, Bool.and_true]
  have hgate2 : (validPressPositionSystem i
      { g := fadeBookkeeping i s, sounds := [], snoozeEv := false,
        summaryEmitted := false, vibrated := false }).g.inputAllowed
        = true := hgate
  unfold stepState step
  rw [press_hit _ _ hgate2 hpress hvalid, missPen_only_timer_gate,
    snooze_event _ rfl, sleep_no_signal _ _ hfod, bounds_inside _ _ hb]
  refine ⟨?_, ?_, ?_, ?_, ?_, ?_, ?_, ?_⟩
  · rw [vibration_only_timer]
    dsimp only [validPressPositionSystem, fadeBookkeeping]
  · rw [vibration_only_timer]
    dsimp only [validPressPositionSystem, fadeBookkeeping]
  · rw [vibration_only_timer]
  · rw [vibration_only_timer]
  · rw [vibration_only_timer]
  · rw [vibration_only_timer]
    dsimp only [validPressPositionSystem, fadeBookkeeping]
    exact hphone
  · rw [vibration_only_timer]
    dsimp only [validPressPositionSystem, fadeBookkeeping]
  · rw [(vibration_keeps_out _ _).1]
    simp

/-- A quiet tick between the snooze and the fade-out completion keeps
the alarm off, the clock, count, fade-out flight, phone, and liveness. -/
theorem snoozing_quiet_step (g : GameState) (i : TickInput)
    (hq : quietIn i) (halarm : g.alarmActive = false)
    (hfo : g.fadeOutInFlight = true) (hp : g.phoneExists = true)
    (hgo : g.gameOver = false) :
    (stepState g i).alarmActive = false ∧ (stepState g i).time = g.time ∧
    (stepState g i).numSnoozes = g.numSnoozes ∧
    (stepState g i).fadeOutInFlight = true ∧
    (stepState g i).phoneExists = true ∧
    (stepState g i).gameOver = false := by
  obtain ⟨hpr, hf, hd, hb⟩ := hq
  unfold stepState step
  dsimp only [fadeBookkeeping]
  rw [validPress_only_valid, press_no_edge _ _ hpr, missPen_only_timer_gate,
    snooze_no_event _ rfl, sleep_no_signal _ _ hf, bounds_inside _ _ hb,
    vibration_only_timer]
  dsimp only
  refine ⟨halarm, rfl, rfl, ?_, hp, hgo⟩
  rw [hfo, hf]
  rfl

/-- Quiet ticks preserve the snoozing (fade-out in flight) plateau. -/
theorem snoozing_quiet_run (g : GameState) (is : List TickInput)
    (hqs : ∀ i ∈ is, quietIn i) (halarm : g.alarmActive = false)
    (hfo : g.fadeOutInFlight = true) (hp : g.phoneExists = true)
    (hgo : g.gameOver = false) :
    (runGame g is).alarmActive = false ∧ (runGame g is).time = g.time ∧
    (runGame g is).numSnoozes = g.numSnoozes ∧
    (runGame g is).fadeOutInFlight = true ∧
    (runGame g is).phoneExists = true ∧
    (runGame g is).gameOver = false := by
  induction is generalizing g with
  | nil => exact ⟨halarm, rfl, rfl, hfo, hp, hgo⟩
  | cons i is ih =>
      rw [runGame_cons]
      obtain ⟨a1, a2, a3, a4, a5, a6⟩ :=
        snoozing_quiet_step g i (hqs i (by simp)) halarm hfo hp hgo
      obtain ⟨b1, b2, b3, b4, b5, b6⟩ :=
        ih (stepState g i) (fun j hj => hqs j (by simp [hj])) a1 a4 a5 a6
      exact ⟨b1, by rw [b2, a2], by rw [b3, a3], b4, b5, b6⟩

/-- The tick on which the fade-out completion signal arrives: the time
display is refreshed from the clock, the anchor is reset to its rail
start, the alarm sound resumes, input is re-allowed, the alarm is back
on, and a fade-in is put in flight. -/
theorem fade_out_done_tick (g : GameState) (i : TickInput)
    (hfod : i.fadeOutDone = true) (hpress : i.press = false)
    (hb : phoneInBounds i) (hp : g.phoneExists = true) :
    (stepState g i).alarmActive = true ∧
    (stepState g i).inputAllowed = true ∧
    (stepState g i).timeDisplay = g.time ∧
    (stepState g i).anchorX = ARM_ANCHOR_STARTING_POSITION_X ∧
    (stepState g i).anchorY = ARM_ANCHOR_STARTING_POSITION_Y ∧
    (stepState g i).fadeInInFlight = true ∧
    Sound.alarmLoop ∈ (step g i).sounds := by
  unfold stepState step
  dsimp only [fadeBookkeeping]
  rw [validPress_only_valid, press_no_edge _ _ hpress,
    missPen_only_timer_gate, snooze_no_event _ rfl, sleep_signal _ _ hfod,
    bounds_inside _ _ hb]
  refine ⟨?_, ?_, ?_, ?_, ?_, ?_, ?_⟩
  · rw [vibration_only_timer]
  · rw [vibration_only_timer]
  · rw [vibration_only_timer]
    dsimp only
    rw [hp]
    rfl
  · rw [vibration_only_timer]
  · rw [vibration_only_timer]
  · rw [vibration_only_timer]
  · rw [(vibration_keeps_out _ _).1]
    simp

/-- C4 amended: for a valid press at clock 8:00 with snooze count 0, the
clock advances to 8:07 and the count to 1 already on the press tick (not
on the fade-out-finished transition), with the alarm off and input
locked and a fade-out in flight; the alarm stays off across quiet ticks
until the fade-out completes; and on the fade-out-finished tick the time
display is refreshed to 8:07, the anchor is repositioned to its rail
start, input is re-allowed, the alarm becomes active again (already at
the start of the fade-in, not after it), and a fade-in is requested. -/
theorem c4_hit_scenario (s : GameState) (i0 : TickInput)
    (is : List TickInput) (iF : TickInput)
    (ht0 : s.time = { hour := 8, minute := 0 }) (hc0 : s.numSnoozes = 0)
    (hgate : s.inputAllowed = true) (hphone : s.phoneExists = true)
    (hgo : s.gameOver = false)
    (hpress : i0.press = true) (hhit : anyTouchOverlap i0 = true)
    (hfod0 : i0.fadeOutDone = false) (hb0 : phoneInBounds i0)
    (hqs : ∀ i ∈ is, quietIn i)
    (hF : iF.fadeOutDone = true) (hFp : iF.press = false)
    (hFb : phoneInBounds iF) :
    (stepState s i0).time = { hour := 8, minute := 7 } ∧
    (stepState s i0).numSnoozes = 1 ∧
    (stepState s i0).alarmActive = false ∧
    (stepState s i0).inputAllowed = false ∧
    (stepState s i0).fadeOutInFlight = true ∧
    (runGame (stepState s i0) is).alarmActive = false ∧
    (runGame (stepState s i0) is).time = { hour := 8, minute := 7 } ∧
    (runGame (stepState s i0) is).numSnoozes = 1 ∧
    (stepState (runGame (stepState s i0) is) iF).alarmActive = true ∧
    (stepState (runGame (stepState s i0) is) iF).inputAllowed = true ∧
    (stepState (runGame (stepState s i0) is) iF).timeDisplay =
      { hour := 8, minute := 7 } ∧
    (stepState (runGame (stepState s i0) is) iF).anchorX =
      ARM_ANCHOR_STARTING_POSITION_X ∧
    (stepState (runGame (stepState s i0) is) iF).anchorY =
      ARM_ANCHOR_STARTING_POSITION_Y ∧
    (stepState (runGame (stepState s i0) is) iF).fadeInInFlight = true := by
  obtain ⟨p1, p2, p3, p4, p5, p6, p7, _⟩ :=
    hit_press_tick s i0 hgate hpress hhit hphone hfod0 hb0
  have e1 : (stepState s i0).time = { hour := 8, minute := 7 } := by
    rw [p1, ht0]
    rfl
  have e2 : (stepState s i0).numSnoozes = 1 := by rw [p2, hc0]
  obtain ⟨q1, q2, q3, q4, q5, q6⟩ :=
    snoozing_quiet_run (stepState s i0) is hqs p3 p5 p6 (by rw [p7, hgo])
  obtain ⟨r1, r2, r3, r4, r5, r6, _⟩ :=
    fade_out_done_tick (runGame (stepState s i0) is) iF hF hFp hFb q5
  refine ⟨e1, e2, p3, p4, p5, q1, by rw [q2, e1], by rw [q3, e2],
    r1, r2, ?_, r4, r5, r6⟩
  rw [r3, q2, e1]

/-- C4 witness: the concrete two-tick hit trace from the initial state. -/
theorem c4_hit_scenario_witness :
    (stepState initialState c4press).time = { hour := 8, minute := 7 } ∧
    (stepState (runGame (stepState initialState c4press) []) c4fadeOutDone).alarmActive
      = true := by
  have h := c4_hit_scenario initialState c4press [] c4fadeOutDone
    rfl rfl rfl rfl rfl rfl (by with_unfolding_all rfl) rfl
    (by with_unfolding_all decide)
    (by intro j hj; simp at hj)
    rfl rfl (by with_unfolding_all decide)
  exact ⟨h.1, h.2.2.2.2.2.2.2.2.1⟩

/-- The first tick of the c5 witness trace: a missed 0.5 s press. -/
def c5in0 : TickInput :=
  { delta := 1/2, press := true,
    snoozeT := { tx := 0, ty := 0, sx := 1, sy := 1 }, touchTs := [],
    phoneX := 0, phoneY := 0, fadeOutDone := false, fadeInDone := false }

/-- The second tick of the c5 witness trace: 0.75 quiet seconds. -/
def c5in1 : TickInput :=
  { delta := 3/4, press := false,
    snoozeT := { tx := 0, ty := 0, sx := 1, sy := 1 }, touchTs := [],
    phoneX := 0, phoneY := 0, fadeOutDone := false, fadeInDone := false }

/-- C5 witness: a miss at the initial state followed by one 0.75 s quiet
tick; 0.5 + 0.75 reaches the 1 s penalty, so input is allowed again. -/
theorem c5_miss_scenario_witness :
    Sound.hit ∈ (step initialState c5in0).sounds ∧
    (runGame initialState (c5in0 :: [c5in1].take 1)).inputAllowed =
      decide (MISS_PENALTY_SECONDS ≤
        c5in0.delta + (([c5in1].take 1).map TickInput.delta).sum) := by
  have h := c5_miss_scenario initialState c5in0 [c5in1] rfl rfl rfl rfl
    (by with_unfolding_all decide) (by with_unfolding_all decide)
    (by
      intro j hj
      rw [List.mem_singleton] at hj
      subst hj
      with_unfolding_all decide)
  exact ⟨h.1, (h.2 1 (by norm_num)).2.2⟩

/-- C8 amended: when the phone (still present, round live or not)
crosses a table edge, that tick sets the game-over flag, turns the alarm
off, locks input, despawns the phone, emits the summary exactly then,
and plays the drop sound; and from any game-over state with the phone
gone, every further tick keeps the game-over flag and the phone absence
and emits no summary, no vibration displacement, and no snooze event.
The claim's stronger promise — that InputAllowed never becomes true
again — is false (see the counterexample): the penalty timer or a
pending fade-out completion can re-open the gate, and presses then play
sounds, though they can never snooze (the overlap is false without the
phone). -/
theorem c8_terminal_failure (s : GameState) (i j : TickInput)
    (hp : s.phoneExists = true)
    (hout : i.phoneX < TABLE_EDGE_LEFT ∨ TABLE_EDGE_RIGHT < i.phoneX ∨
      TABLE_EDGE_TOP < i.phoneY ∨ i.phoneY < TABLE_EDGE_BOTTOM) :
    ((stepState s i).gameOver = true ∧ (stepState s i).alarmActive = false ∧
     (stepState s i).inputAllowed = false ∧
     (stepState s i).phoneExists = false ∧
     (step s i).summaryEmitted = true ∧ Sound.drop ∈ (step s i).sounds) ∧
    (∀ g : GameState, g.gameOver = true → g.phoneExists = false →
      (stepState g j).gameOver = true ∧ (stepState g j).phoneExists = false ∧
      (step g j).summaryEmitted = false ∧ (step g j).vibrated = false ∧
      (step g j).snoozeEv = false) := by
  constructor
  · have hph : (sleepSystem i (snoozeSystem (missPenaltySystem i
        (pressSystem i (validPressPositionSystem i
          { g := fadeBookkeeping i s, sounds := [], snoozeEv := false,
            summaryEmitted := false,
            vibrated := false }))))).g.phoneExists = true := by
      rw [(sleep_fields _ _).1, (snooze_fields _).1, (missPen_fields _ _).1,
        (press_fields _ _).1]
      exact hp
    unfold stepState step
    rw [bounds_out _ _ hph hout]
    refine ⟨?_, ?_, ?_, ?_, ?_, ?_⟩
    · rw [vibration_only_timer]
    · rw [vibration_only_timer]
    · rw [vibration_only_timer]
    · rw [vibration_only_timer]
    · rw [(vibration_keeps_out _ _).2.2]
    · rw [(vibration_keeps_out _ _).1]
      simp
  · intro g hgo hph2
    have hv : (validPressPositionSystem j
        { g := fadeBookkeeping j g, sounds := [], snoozeEv := false,
          summaryEmitted := false, vibrated := false }).g.validPressPosition
          = false := by
      show ((fadeBookkeeping j g).phoneExists && anyTouchOverlap j) = false
      have : (fadeBookkeeping j g).phoneExists = false := hph2
      rw [this, Bool.false_and]
    unfold stepState step
    set f0 : Frame :=
      { g := fadeBookkeeping j g, sounds := [], snoozeEv := false,
        summaryEmitted := false, vibrated := false } with hf0
    set F1 : Frame := validPressPositionSystem j f0 with hF1
    set F2 : Frame := pressSystem j F1 with hF2
    set F3 : Frame := missPenaltySystem j F2 with hF3
    set F4 : Frame := snoozeSystem F3 with hF4
    set F5 : Frame := sleepSystem j F4 with hF5
    set F6 : Frame := tableBoundsSystem j F5 with hF6
    have c1 : F1.g.phoneExists = false := hph2
    have c2 : F1.g.gameOver = true := hgo
    have c3 : F1.summaryEmitted = false := rfl
    have c4 : F1.vibrated = false := rfl
    have c5 : F1.snoozeEv = false := rfl
    have d1 : F2.g.phoneExists = false := by
      rw [hF2, (press_fields _ _).1]
      exact c1
    have d2 : F2.g.gameOver = true := by
      rw [hF2, (press_fields _ _).2.1]
      exact c2
    have d3 : F2.summaryEmitted = false := by
      rw [hF2, (press_fields _ _).2.2.2.2.2.1]
      exact c3
    have d4 : F2.vibrated = false := by
      rw [hF2, (press_fields _ _).2.2.2.2.2.2]
      exact c4
    have d5 : F2.snoozeEv = false := by
      rw [hF2, press_no_snooze _ _ hv]
      exact c5
    have e3p : F3.g.phoneExists = false := by
      rw [hF3, (missPen_fields _ _).1]
      exact d1
    have e3go : F3.g.gameOver = true := by
      rw [hF3, (missPen_fields _ _).2.1]
      exact d2
    have e3s : F3.summaryEmitted = false := by
      rw [hF3, (missPen_fields _ _).2.2.2.2.2.1]
      exact d3
    have e3v : F3.vibrated = false := by
      rw [hF3, (missPen_fields _ _).2.2.2.2.2.2.1]
      exact d4
    have e3e : F3.snoozeEv = false := by
      rw [hF3, (missPen_fields _ _).2.2.2.2.2.2.2]
      exact d5
    have e4 : F4 = F3 := by
      rw [hF4]
      exact snooze_no_event _ e3e
    have f5p : F5.g.phoneExists = false := by
      rw [hF5, (sleep_fields _ _).1, e4]
      exact e3p
    have f5go : F5.g.gameOver = true := by
      rw [hF5, (sleep_fields _ _).2.1, e4]
      exact e3go
    have f5s : F5.summaryEmitted = false := by
      rw [hF5, (sleep_fields _ _).2.2.1, e4]
      exact e3s
    have f5v : F5.vibrated = false := by
      rw [hF5, (sleep_fields _ _).2.2.2.1, e4]
      exact e3v
    have f5e : F5.snoozeEv = false := by
      rw [hF5, (sleep_fields _ _).2.2.2.2, e4]
      exact e3e
    have e6 : F6 = F5 := by
      rw [hF6]
      exact bounds_no_phone _ _ f5p
    refine ⟨?_, ?_, ?_, ?_, ?_⟩
    · rw [vibration_only_timer, e6]
      exact f5go
    · rw [vibration_only_timer, e6]
      exact f5p
    · rw [(vibration_keeps_out _ _).2.2, e6]
      exact f5s
    · rw [vibration_no_phone _ _ (by rw [e6]; exact f5p), e6]
      exact f5v
    · rw [(vibration_keeps_out _ _).2.1, e6]
      exact f5e

/-- C8 amended witness: the crossing tick from the initial state with
the phone past the right edge. -/
theorem c8_terminal_failure_witness :
    (stepState initialState c8out).gameOver = true ∧
    (step initialState c8out).summaryEmitted = true := by
  have h := c8_terminal_failure initialState c8out c8later rfl
    (Or.inr (Or.inl (by norm_num [TABLE_EDGE_RIGHT, c8out])))
  exact ⟨h.1.1, h.1.2.2.2.2.1⟩

/-- C9: a press while input is locked is a complete no-op: the whole tick
(final state and all emitted observables) is identical to the same tick
with the press removed, so no state changes and no sound or snooze event
is attributable to the press. -/
theorem c9_press_while_locked_noop (s : GameState) (i : TickInput)
    (h : s.inputAllowed = false) :
    step s i = step s { i with press := false } := by
  obtain ⟨d, p, st, tt, px, py, fo, fi⟩ := i
  simp only [step, validPressPositionSystem, fadeBookkeeping, pressSystem, h]
  with_unfolding_all rfl

/-- C9 witness: a locked state with a pressed tick. -/
theorem c9_press_while_locked_noop_witness :
    step { initialState with inputAllowed := false } c8miss =
    step { initialState with inputAllowed := false } { c8miss with press := false } :=
  c9_press_while_locked_noop _ _ rfl

/-- C10: while the alarm is inactive the vibration system leaves the
whole frame unchanged: the vibrate timer is not ticked (its elapsed value
stays put, so it resumes from there once the alarm is active again) and
no displacement is issued. -/
theorem c10_vibration_inert_when_alarm_off (i : TickInput) (f : Frame)
    (h : f.g.alarmActive = false) :
    vibrationSystem i f = f := by
  simp [vibrationSystem, h]

/-- C10 witness: the initial state with the alarm switched off. -/
theorem c10_vibration_inert_when_alarm_off_witness :
    vibrationSystem c3quiet
      { g := { initialState with alarmActive := false }, sounds := [],
        snoozeEv := false, summaryEmitted := false, vibrated := false } =
      { g := { initialState with alarmActive := false }, sounds := [],
        snoozeEv := false, summaryEmitted := false, vibrated := false } :=
  c10_vibration_inert_when_alarm_off _ _ rfl

end LD50
